import Mathlib

/-!
Shallow embedding of the Quotex trading dashboard backend
(screen-capture pipeline, prediction service, session cache, data routes).

Conventions of the embedding:
* timestamps are milliseconds since the epoch, modelled as `Int`
  (JavaScript `Date.getTime()` / `Date.now()`);
* prices are modelled as `ℚ`; the calls `parseFloat(x.toFixed(5))`
  are modelled by rounding to 5 decimal places (`round5`);
* `Math.random()` draws are passed in as explicit `ℚ` parameters;
* the MongoDB collections are modelled as Lean lists; `find` with a
  `sort`/`limit` is modelled by `List.filter`, a stable insertion
  sort (`sortBy`) and `List.take`; `findOne` is `List.find?`.
-/

namespace Dashboard

/-- Candle direction, the `direction` enum `['up','down']` of the models. -/
inductive Dir where
  | up
  | down
deriving DecidableEq, Repr

/-- Reversal used by the trend predictor (`lastDirection === 'up' ? 'down' : 'up'`). -/
def Dir.flip : Dir → Dir
  | .up => .down
  | .down => .up

/-- A stored `CandleData` document (the fields used by the backend logic). -/
structure Candle where
  timestamp : Int
  tradingPair : String
  sessionId : String
  direction : Dir
  open_ : ℚ
  high : ℚ
  low : ℚ
  close : ℚ
  change : ℚ
deriving DecidableEq, Repr

/-- Stable insertion of `a` into `l`, keeping earlier elements first on ties. -/
def insertBy (le : α → α → Bool) (a : α) : List α → List α
  | [] => [a]
  | b :: bs => if le b a then b :: insertBy le a bs else a :: b :: bs

/-- Stable insertion sort; models MongoDB `.sort(...)`. -/
def sortBy (le : α → α → Bool) : List α → List α
  | [] => []
  | a :: as => insertBy le a (sortBy le as)

/-- `Math.round (num / den)` for a non-negative rational `num / den`
(`den > 0`): round half up, computed with natural division. -/
def jsRound (num den : Nat) : Nat :=
  (2 * num + den) / (2 * den)

/-- A prediction as produced by the prediction service (the fields the
fusion logic reads and writes). -/
structure Pred where
  direction : Dir
  confidence : Int
  algorithmUsed : String
deriving DecidableEq, Repr

/-- One entry of the list returned by `findSimilarPatterns`. -/
structure PatternMatch where
  timestamp : Int
  pattern : List Dir
  nextDirection : Dir
  nextOpen : ℚ
  nextClose : ℚ
deriving DecidableEq, Repr

/-- The sliding-window scan of `findSimilarPatterns`
(`for (let i = 0; i <= historicalCandles.length - patternLength - 1; i++) ...`):
for each start index `i` with `i + patternLength < hist.length`, keep the
window when its directions equal the target pattern positionally, recording
the candle immediately after the window as the outcome. -/
def scanMatches (hist : List Candle) (target : List Dir) : List PatternMatch :=
  (List.range (hist.length - target.length)).filterMap (fun i =>
    let windowCandles := (hist.drop i).take target.length
    if windowCandles.map (·.direction) = target then
      match hist.get? (i + target.length) with
      | some nextCandle =>
          some { timestamp := (windowCandles.headD nextCandle).timestamp
                 pattern := windowCandles.map (·.direction)
                 nextDirection := nextCandle.direction
                 nextOpen := nextCandle.open_
                 nextClose := nextCandle.close }
      | none => none
    else none)

/-- The query of `findSimilarPatterns`: `CandleData.find({tradingPair,
timestamp: {$lt: t0}}).sort({timestamp: 1}).limit(1000)` — candles of the
same pair strictly before `c0`, ascending by timestamp, the first 1000
(so the earliest 1000, not the most recent 1000). -/
def scannedHistory (db : List Candle) (c0 : Candle) : List Candle :=
  (sortBy (fun a b => decide (a.timestamp ≤ b.timestamp))
    (db.filter (fun c =>
      c.tradingPair == c0.tradingPair && decide (c.timestamp < c0.timestamp)))).take 1000

/-- `PredictionService.findSimilarPatterns`: query the candle collection
(`scannedHistory`), scan it with a sliding window, and return at most the
first 20 matches (`matches.slice(0, 20)`). -/
def findSimilarPatterns (db : List Candle) (recentCandles : List Candle) :
    List PatternMatch :=
  match recentCandles with
  | [] => []
  | c0 :: _ =>
    let historicalCandles := scannedHistory db c0
    (scanMatches historicalCandles (recentCandles.map (·.direction))).take 20

/-- The `outcomes.up` tally of `predictFromPatterns`. -/
def upVotes (l : List PatternMatch) : Nat :=
  (l.filter (fun p => p.nextDirection == Dir.up)).length

/-- The `outcomes.down` tally of `predictFromPatterns`. -/
def downVotes (l : List PatternMatch) : Nat :=
  (l.filter (fun p => p.nextDirection == Dir.down)).length

/-- `PredictionService.predictFromPatterns`: tally the outcomes of the
similar patterns (`upVotes`/`downVotes` are the `outcomes.up` and
`outcomes.down` counters); the winning direction is `outcomes.up >
outcomes.down ? 'up' : 'down'`; confidence is `min(95,
Math.round(winningCount / totalPatterns * 100))`; with no similar
patterns the method returns `null`. -/
def predictFromPatterns (db : List Candle) (recentCandles : List Candle) :
    Option Pred :=
  let similarPatterns := findSimilarPatterns db recentCandles
  if similarPatterns = [] then none
  else
    let upCount := upVotes similarPatterns
    let downCount := downVotes similarPatterns
    let totalPatterns := upCount + downCount
    let winningDirection := if upCount > downCount then Dir.up else Dir.down
    let winningCount := max upCount downCount
    let confidence := min 95 (jsRound (winningCount * 100) totalPatterns)
    some { direction := winningDirection
           confidence := (confidence : Int)
           algorithmUsed := "pattern_matching" }

/-- Length of the run of identical directions ending at the last element
(the `consecutiveCount` loop; initialised to 1, so 1 even on `[]`). -/
def tailRun (ds : List Dir) : Nat :=
  match ds.reverse with
  | [] => 1
  | d :: rest => 1 + (rest.takeWhile (· == d)).length

/-- `PredictionService.predictFromTrend`: with a streak of 3 or more
identical trailing directions predict the reversal with confidence
`min(95, 60 + streak*5)`; otherwise predict the majority direction with
confidence `min(95, 55 + |upCount - downCount|*5)`. -/
def predictFromTrend (recentCandles : List Candle) : Pred :=
  let directions := recentCandles.map (·.direction)
  let upCount := (directions.filter (· == Dir.up)).length
  let downCount := (directions.filter (· == Dir.down)).length
  let consecutiveCount := tailRun directions
  if consecutiveCount ≥ 3 then
    let lastDirection := directions.getLastD Dir.down
    { direction := lastDirection.flip
      confidence := min 95 (60 + (consecutiveCount : Int) * 5)
      algorithmUsed := "trend_analysis" }
  else
    { direction := if upCount > downCount then Dir.up else Dir.down
      confidence := min 95 (55 + ((upCount : Int) - (downCount : Int)).natAbs * 5)
      algorithmUsed := "trend_analysis" }

/-- `PredictionService.combinePredictions`: when both methods produced a
prediction, agreement keeps the pattern direction with confidence
`min(95, c+10)` and tag `pattern_matching_trend_confirmed`; disagreement
keeps the pattern direction with confidence `max(50, c-15)` and tag
`pattern_matching_trend_conflict`; otherwise `patternPred || trendPred`. -/
def combinePredictions (patternPred trendPred : Option Pred) : Option Pred :=
  match patternPred, trendPred with
  | some pp, some tp =>
    if pp.direction = tp.direction then
      some { pp with confidence := min 95 (pp.confidence + 10)
                     algorithmUsed := "pattern_matching_trend_confirmed" }
    else
      some { pp with confidence := max 50 (pp.confidence - 15)
                     algorithmUsed := "pattern_matching_trend_conflict" }
  | some pp, none => some pp
  | none, tp => tp

/-- `PredictionService.generatePrediction`: needs at least 10 recent
candles; reverses the input, takes the last 5, runs both methods and
fuses them. -/
def generatePrediction (db : List Candle) (recentCandles : List Candle) :
    Option Pred :=
  if recentCandles.length < 10 then none
  else
    let chronologicalCandles := recentCandles.reverse
    let last5Candles := chronologicalCandles.drop (chronologicalCandles.length - 5)
    let patternPrediction := predictFromPatterns db last5Candles
    let trendPrediction := predictFromTrend last5Candles
    combinePredictions patternPrediction trendPrediction

/-! ### Session cache (`SessionData` model and `SessionManager.validateQuotexSession`) -/

/-- The `status` enum `['active','expired','invalid','pending']` of `SessionData`. -/
inductive SessionStatus where
  | active
  | expired
  | invalid
  | pending
deriving DecidableEq, Repr

/-- A stored `SessionData` document (the fields read by the cache logic). -/
structure SessionRecord where
  sessionId : String
  isValidated : Bool
  lastValidationCheck : Int
  status : SessionStatus
  expiresAt : Int
deriving DecidableEq, Repr

/-- The fixed revalidation window of `needsRevalidation`: 2 hours in ms. -/
def revalidationWindowMs : Int := 2 * 60 * 60 * 1000

/-- `SessionData.findValidatedSession`: `findOne({sessionId, isValidated: true,
status: 'active', expiresAt: {$gt: new Date()}})`. -/
def findValidatedSession (db : List SessionRecord) (sessionId : String) (now : Int) :
    Option SessionRecord :=
  db.find? (fun r =>
    r.sessionId == sessionId && r.isValidated &&
    r.status == SessionStatus.active && decide (now < r.expiresAt))

/-- `SessionData#needsRevalidation`: true when not validated, when more than
2 hours passed since `lastValidationCheck`, or when status is not active. -/
def needsRevalidation (r : SessionRecord) (now : Int) : Bool :=
  !r.isValidated ||
  decide (now - r.lastValidationCheck > revalidationWindowMs) ||
  !(r.status == SessionStatus.active)

/-- The cache test of `SessionManager.validateQuotexSession`:
`cachedSession && !cachedSession.needsRevalidation()`. -/
def usableFromCache (db : List SessionRecord) (sessionId : String) (now : Int) : Bool :=
  match findValidatedSession db sessionId now with
  | some cachedSession => !(needsRevalidation cachedSession now)
  | none => false

/-- `SessionManager.validateQuotexSession`, abstracting the Puppeteer run as
the boolean `puppeteerLoggedIn`: returns `(isLoggedIn, answeredFromCache)`.
The slow validation path runs exactly when the cache test fails. -/
def validateQuotexSession (db : List SessionRecord) (sessionId : String) (now : Int)
    (puppeteerLoggedIn : Bool) : Bool × Bool :=
  if usableFromCache db sessionId now then (true, true)
  else (puppeteerLoggedIn, false)

/-! ### Candle extraction (`ScreenCaptureService`) -/

/-- `parseFloat(x.toFixed(5))` modelled on `ℚ`: round to 5 decimal places
(half up). -/
def round5 (q : ℚ) : ℚ :=
  ((⌊q * 100000 + 1 / 2⌋ : Int) : ℚ) / 100000

/-- `ScreenCaptureService.extractCandleData` on a successful visual
analysis. `visualDirection` is `analysis.colors?.direction ||
analysis.signal?.direction || 'unknown'` (`none` = `'unknown'`); `r1 r2 r3`
are the three `Math.random()` draws; `currentPrice` is the analysed (or
mock) price. The direction is derived from `close > open` only when the
visual direction is unknown; otherwise the visual direction is stored. -/
def extractCandleData (visualDirection : Option Dir) (currentPrice : ℚ)
    (r1 r2 r3 : ℚ) (timestamp : Int) (sessionId : String) : Candle :=
  let basePrice := currentPrice
  let change := (r1 - 1 / 2) * (2 / 1000)
  let open_ := basePrice
  let close := basePrice + change
  let high := max open_ close + r2 * (1 / 1000)
  let low := min open_ close - r3 * (1 / 1000)
  { timestamp := timestamp
    tradingPair := "EUR/USD OTC"
    sessionId := sessionId
    direction := match visualDirection with
      | none => if close > open_ then Dir.up else Dir.down
      | some d => d
    open_ := round5 open_
    high := round5 high
    low := round5 low
    close := round5 close
    change := round5 (close - open_) }

/-- `ScreenCaptureService.generateFallbackData` (visual analysis failed):
mock OHLC from random draws; direction always `close > open ? 'up' : 'down'`. -/
def generateFallbackData (mockPrice : ℚ) (r1 r2 r3 : ℚ) (timestamp : Int)
    (sessionId : String) : Candle :=
  let change := (r1 - 1 / 2) * (2 / 1000)
  let open_ := mockPrice
  let close := mockPrice + change
  let high := max open_ close + r2 * (1 / 1000)
  let low := min open_ close - r3 * (1 / 1000)
  { timestamp := timestamp
    tradingPair := "EUR/USD OTC"
    sessionId := sessionId
    direction := if close > open_ then Dir.up else Dir.down
    open_ := round5 open_
    high := round5 high
    low := round5 low
    close := round5 close
    change := round5 change }

/-- `ScreenCaptureService.saveCandleData`: look for an observation of the
same trading pair and session whose timestamp is within `[t-30000, t+30000]`
(inclusive `$gte`/`$lte`); if found return it and leave the collection
unchanged, otherwise append the new observation. -/
def saveCandleData (db : List Candle) (candleData : Candle) : List Candle × Candle :=
  match db.find? (fun e =>
      decide (candleData.timestamp - 30000 ≤ e.timestamp) &&
      decide (e.timestamp ≤ candleData.timestamp + 30000) &&
      e.tradingPair == candleData.tradingPair &&
      e.sessionId == candleData.sessionId) with
  | some recentDuplicate => (db, recentDuplicate)
  | none => (db ++ [candleData], candleData)

/-- `ScreenCaptureService.getRecentCandles`: candles of this session and
pair, newest first, limited, then reversed into chronological order. -/
def getRecentCandles (db : List Candle) (sessionId : String) (limit : Nat) :
    List Candle :=
  let filtered := db.filter (fun c =>
    c.sessionId == sessionId && c.tradingPair == "EUR/USD OTC")
  ((sortBy (fun a b => decide (b.timestamp ≤ a.timestamp)) filtered).take limit).reverse

/-! ### Prediction records (`Prediction` model, store and verify) -/

/-- The `actualResult` subdocument of a `Prediction`. -/
structure ActualResult where
  direction : Dir
  actualClose : ℚ
  verifiedAt : Int
  correct : Bool
deriving DecidableEq, Repr

/-- A stored `Prediction` document; `id` models the Mongo `_id`. -/
structure PredRecord where
  id : Nat
  timestamp : Int
  tradingPair : String
  direction : Dir
  confidence : Int
  algorithmUsed : String
  sessionId : String
  actualResult : Option ActualResult
  accuracy : Option Int
  isProcessed : Bool
deriving DecidableEq, Repr

/-- `PredictionService.storePrediction`: append a new unprocessed record
(`isProcessed: false`, no `actualResult`); with no prediction data, store
nothing. Fresh ids are allocated sequentially. -/
def storePrediction (preds : List PredRecord) (predictionData : Option Pred)
    (sessionId : String) (now : Int) : List PredRecord :=
  match predictionData with
  | none => preds
  | some pd =>
    preds ++ [{ id := preds.length
                timestamp := now
                tradingPair := "EUR/USD OTC"
                direction := pd.direction
                confidence := pd.confidence
                algorithmUsed := pd.algorithmUsed
                sessionId := sessionId
                actualResult := none
                accuracy := none
                isProcessed := false }]

/-- `PredictionService.verifyPrediction`: find the record by id; if absent
return `none` and change nothing; otherwise overwrite `actualResult` with
the actual candle's direction and close, a fresh `verifiedAt`, and
`correct = (prediction.direction === actualCandle.direction)`, set
`accuracy` and `isProcessed`, and save. -/
def verifyPrediction (preds : List PredRecord) (predictionId : Nat)
    (actualCandle : Candle) (now : Int) : List PredRecord × Option PredRecord :=
  match preds.find? (fun p => p.id == predictionId) with
  | none => (preds, none)
  | some prediction =>
    let isCorrect := prediction.direction == actualCandle.direction
    let updated := { prediction with
      actualResult := some { direction := actualCandle.direction
                             actualClose := actualCandle.close
                             verifiedAt := now
                             correct := isCorrect }
      accuracy := some (if isCorrect then 100 else 0)
      isProcessed := true }
    (preds.map (fun p => if p.id == predictionId then updated else p), some updated)

/-! ### The capture cycle (`ScreenCaptureService.captureAndProcess`) -/

/-- The persistent state the capture cycle acts on: the candle collection
and the prediction collection. -/
structure CaptureState where
  candles : List Candle
  predictions : List PredRecord
deriving DecidableEq, Repr

/-- One run of `ScreenCaptureService.captureAndProcess` after a successful
extraction of `candleData`: save the candle (with duplicate protection),
fetch up to 20 recent candles, and when at least 10 exist generate and
store a prediction. The cycle contains no call to `verifyPrediction`. -/
def captureAndProcess (st : CaptureState) (sessionId : String)
    (candleData : Candle) : CaptureState :=
  let saved := saveCandleData st.candles candleData
  let candles := saved.1
  let recentCandles := getRecentCandles candles sessionId 20
  let predictions :=
    if recentCandles.length ≥ 10 then
      storePrediction st.predictions (generatePrediction candles recentCandles)
        sessionId candleData.timestamp
    else st.predictions
  { candles := candles, predictions := predictions }

/-! ### Data routes (`routes/data.js`) -/

/-- JavaScript falsiness of the optional `sessionId` query parameter
(`if (!sessionId)`): absent or the empty string. -/
def blankSession (sessionQuery : Option String) : Bool :=
  match sessionQuery with
  | none => true
  | some s => s == ""

/-- `GET /api/data/candles`: reject with 401 and no data when the session
id is missing or the session does not validate as logged in; otherwise
return the session's candles, newest first, limited. (The optional
`startDate`/`endDate` filters are not exercised here.) -/
def getCandlesRoute (sessionQuery : Option String) (sdb : List SessionRecord)
    (now : Int) (puppeteerLoggedIn : Bool) (cdb : List Candle)
    (tradingPair : String) (limit : Nat) : Nat × List Candle :=
  if blankSession sessionQuery then (401, [])
  else
    let sid := sessionQuery.getD ""
    if (validateQuotexSession sdb sid now puppeteerLoggedIn).1 then
      let filtered := cdb.filter (fun c =>
        c.tradingPair == tradingPair && c.sessionId == sid)
      (200, (sortBy (fun a b => decide (b.timestamp ≤ a.timestamp)) filtered).take limit)
    else (401, [])

/-- `GET /api/data/predictions`: no session validation at all; the optional
session id only narrows the query. Always answers 200 with the matching
predictions, newest first, limited. -/
def getPredictionsRoute (sessionQuery : Option String) (pdb : List PredRecord)
    (tradingPair : String) (limit : Nat) : Nat × List PredRecord :=
  let query := fun (p : PredRecord) =>
    p.tradingPair == tradingPair &&
    (match sessionQuery with
     | none => true
     | some sid => sid == "" || p.sessionId == sid)
  (200, (sortBy (fun a b => decide (b.timestamp ≤ a.timestamp)) (pdb.filter query)).take limit)

/-- `GET /api/data/prediction`: reject with 401 and no data when the
session id is missing or the session does not validate as logged in;
otherwise return the latest prediction of this session and pair (200 with
`none` when there is none yet). -/
def getPredictionRoute (sessionQuery : Option String) (sdb : List SessionRecord)
    (now : Int) (puppeteerLoggedIn : Bool) (pdb : List PredRecord)
    (tradingPair : String) : Nat × Option PredRecord :=
  if blankSession sessionQuery then (401, none)
  else
    let sid := sessionQuery.getD ""
    if (validateQuotexSession sdb sid now puppeteerLoggedIn).1 then
      let filtered := pdb.filter (fun p =>
        p.tradingPair == tradingPair && p.sessionId == sid)
      (200, (sortBy (fun a b => decide (b.timestamp ≤ a.timestamp)) filtered).head?)
    else (401, none)

/-! ### Concrete inputs used by witnesses and counterexamples -/

/-- A candle observation with the default pair and session. -/
def mkTestCandle (ts : Int) (d : Dir) : Candle :=
  { timestamp := ts, tradingPair := "EUR/USD OTC", sessionId := "s1",
    direction := d, open_ := 1, high := 1, low := 1, close := 1, change := 0 }

/-- An active validated session whose last validation check was at time 0. -/
def sessionAtBoundary : SessionRecord :=
  { sessionId := "s1", isValidated := true, lastValidationCheck := 0,
    status := SessionStatus.active, expiresAt := 100000000 }

/-- Seven consecutive up candles, one minute apart. -/
def dbC3 : List Candle :=
  (List.range 7).map (fun n => mkTestCandle (60000 * (n : Int)) Dir.up)

/-- Five recent up candles, after the history above. -/
def recentC3 : List Candle :=
  (List.range 5).map (fun n => mkTestCandle (60000 * (30 + (n : Int))) Dir.up)

/-- Five recent candles ending in a three-long down streak. -/
def recentC4 : List Candle :=
  [mkTestCandle 0 Dir.up, mkTestCandle 60000 Dir.up, mkTestCandle 120000 Dir.down,
   mkTestCandle 180000 Dir.down, mkTestCandle 240000 Dir.down]

/-- Twenty-six consecutive up candles, one minute apart: 21 windows of
length 5 match the all-up signature. -/
def candlesC5 : List Candle :=
  (List.range 26).map (fun n => mkTestCandle (60000 * (n : Int)) Dir.up)

/-- Five recent up candles, after `candlesC5`. -/
def recentC5 : List Candle :=
  (List.range 5).map (fun n => mkTestCandle (60000 * (40 + (n : Int))) Dir.up)

/-- The head of a 5-candle all-up recent window after `dbC3`. -/
def headC5w : Candle := mkTestCandle (60000 * 30) Dir.up

/-- The remaining four candles of that recent window. -/
def restC5w : List Candle :=
  [mkTestCandle (60000 * 31) Dir.up, mkTestCandle (60000 * 32) Dir.up,
   mkTestCandle (60000 * 33) Dir.up, mkTestCandle (60000 * 34) Dir.up]

/-- The first pattern match found on `dbC3` for the all-up signature. -/
def matchC5w : PatternMatch :=
  { timestamp := 0, pattern := [Dir.up, Dir.up, Dir.up, Dir.up, Dir.up],
    nextDirection := Dir.up, nextOpen := 1, nextClose := 1 }

/-- A prediction record that has already been graded (verified at 1000). -/
def gradedRecord : PredRecord :=
  { id := 0, timestamp := 600000, tradingPair := "EUR/USD OTC", direction := Dir.up,
    confidence := 60, algorithmUsed := "trend_analysis", sessionId := "s1",
    actualResult := some { direction := Dir.down, actualClose := 1,
                           verifiedAt := 1000, correct := false },
    accuracy := some 0, isProcessed := true }

/-- A stored, unverified prediction record. -/
def predRecC10 : PredRecord :=
  { id := 0, timestamp := 5, tradingPair := "EUR/USD OTC", direction := Dir.up,
    confidence := 60, algorithmUsed := "trend_analysis", sessionId := "s1",
    actualResult := none, accuracy := none, isProcessed := false }

/-- The n-th synthetic observation of the 11-tick scenario: one minute
apart, directions alternating starting with up. -/
def tickCandle (n : Nat) : Candle :=
  mkTestCandle (60000 * ((n : Int) + 1)) (if n % 2 = 0 then Dir.up else Dir.down)

/-- The capture state after 11 capture cycles on the alternating
observations, starting from empty collections. -/
def elevenTicks : CaptureState :=
  ((List.range 11).map tickCandle).foldl
    (fun st c => captureAndProcess st "s1" c) { candles := [], predictions := [] }

/-! ## General lemmas -/

/-- Every outcome of a pattern match is up or down, so the two tallies
exhaust the matches. -/
theorem upVotes_add_downVotes (l : List PatternMatch) :
    upVotes l + downVotes l = l.length := by
  induction l with
  | nil => rfl
  | cons a l ih =>
    unfold upVotes downVotes at ih ⊢
    cases h : a.nextDirection <;> simp [List.filter_cons, h] <;> omega

/-- The up and down counts of a direction list exhaust it. -/
theorem dirCount_add (ds : List Dir) :
    (ds.filter (· == Dir.up)).length + (ds.filter (· == Dir.down)).length = ds.length := by
  induction ds with
  | nil => rfl
  | cons a l ih => cases a <;> simp [List.filter_cons] <;> omega

/-! ## C1: session-cache usability -/

/-- C1 (counterexample): a stored record whose last validation check lies
exactly 2 hours in the past is answered usable from the cache, although
`now - lastValidationCheck` is not strictly under the 2-hour window as the
claim requires. -/
theorem C1_counterexample :
    usableFromCache [sessionAtBoundary] "s1" 7200000 = true ∧
    ¬(7200000 - sessionAtBoundary.lastValidationCheck < revalidationWindowMs) := by
  constructor
  · rfl
  · decide

/-- C1 (amended): the cache lookup reports a stored record usable, and the
slow validation path is skipped, exactly when the record is active,
validated, unexpired, and its last validation check is at most (not
strictly under) 2 hours old. -/
theorem C1_cache_usable (r : SessionRecord) (sid : String) (now : Int)
    (h : r.sessionId = sid) :
    (usableFromCache [r] sid now = true ↔
      (r.status = SessionStatus.active ∧ r.isValidated = true ∧
       now < r.expiresAt ∧ now - r.lastValidationCheck ≤ revalidationWindowMs)) ∧
    (∀ puppeteerLoggedIn,
      (validateQuotexSession [r] sid now puppeteerLoggedIn).2 =
        usableFromCache [r] sid now) := by
  constructor
  · subst h
    obtain ⟨rs, rv, rl, rst, re⟩ := r
    cases rv <;> cases rst <;>
      simp [usableFromCache, findValidatedSession, needsRevalidation,
        List.find?_cons, revalidationWindowMs]
    by_cases hexp : now < re <;> simp [hexp]
  · intro puppeteerLoggedIn
    unfold validateQuotexSession
    split <;> simp_all

/-- C1 (witness): the boundary record is usable and the characterisation
applies to it. -/
theorem C1_cache_usable_witness :
    (usableFromCache [sessionAtBoundary] "s1" 7200000 = true ↔
      (sessionAtBoundary.status = SessionStatus.active ∧
       sessionAtBoundary.isValidated = true ∧
       (7200000 : Int) < sessionAtBoundary.expiresAt ∧
       (7200000 : Int) - sessionAtBoundary.lastValidationCheck ≤ revalidationWindowMs)) ∧
    (∀ puppeteerLoggedIn,
      (validateQuotexSession [sessionAtBoundary] "s1" 7200000 puppeteerLoggedIn).2 =
        usableFromCache [sessionAtBoundary] "s1" 7200000) :=
  C1_cache_usable sessionAtBoundary "s1" 7200000 rfl

/-! ## C2: fusion of the two prediction methods -/

/-- C2 (counterexample): the fusion emits the claimed directions and
confidences, but its `algorithmUsed` tags are
`pattern_matching_trend_confirmed`, `pattern_matching_trend_conflict` and
(for the trend-only case) the trend result's own `trend_analysis`, not the
tags `pattern_trend_confirmed`/`pattern_trend_conflict`/`trend_only` the
claim names. -/
theorem C2_counterexample :
    combinePredictions (some ⟨Dir.up, 80, "pattern_matching"⟩)
        (some ⟨Dir.up, 60, "trend_analysis"⟩) =
      some ⟨Dir.up, 90, "pattern_matching_trend_confirmed"⟩ ∧
    "pattern_matching_trend_confirmed" ≠ "pattern_trend_confirmed" ∧
    combinePredictions (some ⟨Dir.up, 80, "pattern_matching"⟩)
        (some ⟨Dir.down, 60, "trend_analysis"⟩) =
      some ⟨Dir.up, 65, "pattern_matching_trend_conflict"⟩ ∧
    "pattern_matching_trend_conflict" ≠ "pattern_trend_conflict" ∧
    combinePredictions none (some ⟨Dir.down, 60, "trend_analysis"⟩) =
      some ⟨Dir.down, 60, "trend_analysis"⟩ ∧
    "trend_analysis" ≠ "trend_only" :=
  ⟨rfl, by decide, rfl, by decide, rfl, by decide⟩

/-- C2 (amended): agreement emits the pattern direction with confidence
`min(95, c+10)` and tag `pattern_matching_trend_confirmed`; disagreement
emits the pattern direction with confidence `max(50, c-15)` and tag
`pattern_matching_trend_conflict`; with no pattern result the trend result
is emitted verbatim, keeping its own `algorithmUsed` tag. -/
theorem C2_fusion (pp tp : Pred) :
    (pp.direction = tp.direction →
      ∃ q, combinePredictions (some pp) (some tp) = some q ∧
        q.direction = pp.direction ∧ q.confidence = min 95 (pp.confidence + 10) ∧
        q.algorithmUsed = "pattern_matching_trend_confirmed") ∧
    (pp.direction ≠ tp.direction →
      ∃ q, combinePredictions (some pp) (some tp) = some q ∧
        q.direction = pp.direction ∧ q.confidence = max 50 (pp.confidence - 15) ∧
        q.algorithmUsed = "pattern_matching_trend_conflict") ∧
    combinePredictions none (some tp) = some tp := by
  refine ⟨fun hagree => ?_, fun hdis => ?_, rfl⟩
  · refine ⟨{ pp with
        confidence := min 95 (pp.confidence + 10)
        algorithmUsed := "pattern_matching_trend_confirmed" }, ?_, rfl, rfl, rfl⟩
    simp only [combinePredictions]
    rw [if_pos hagree]
  · refine ⟨{ pp with
        confidence := max 50 (pp.confidence - 15)
        algorithmUsed := "pattern_matching_trend_conflict" }, ?_, rfl, rfl, rfl⟩
    simp only [combinePredictions]
    rw [if_neg hdis]

/-- C2 (witness): the fusion cases applied to concrete prediction pairs. -/
theorem C2_fusion_witness :
    (∃ q, combinePredictions (some ⟨Dir.up, 80, "pattern_matching"⟩)
        (some ⟨Dir.up, 60, "trend_analysis"⟩) = some q ∧
      q.direction = Dir.up ∧ q.confidence = min 95 (80 + 10) ∧
      q.algorithmUsed = "pattern_matching_trend_confirmed") ∧
    (∃ q, combinePredictions (some ⟨Dir.up, 80, "pattern_matching"⟩)
        (some ⟨Dir.down, 60, "trend_analysis"⟩) = some q ∧
      q.direction = Dir.up ∧ q.confidence = max 50 (80 - 15) ∧
      q.algorithmUsed = "pattern_matching_trend_conflict") :=
  ⟨(C2_fusion ⟨Dir.up, 80, "pattern_matching"⟩ ⟨Dir.up, 60, "trend_analysis"⟩).1 rfl,
   (C2_fusion ⟨Dir.up, 80, "pattern_matching"⟩ ⟨Dir.down, 60, "trend_analysis"⟩).2.1
     (by decide)⟩

/-! ## C6: direction versus open/close -/

/-- C6 (counterexample): visual analysis reported `down`, the random price
change is positive, so the stored candle has `close > open` yet direction
`down`: the stored direction can contradict the stored open/close
relationship. -/
theorem C6_counterexample :
    (extractCandleData (some Dir.down) (108 / 100) (3 / 4) 0 0 0 "s1").direction =
      Dir.down ∧
    (extractCandleData (some Dir.down) (108 / 100) (3 / 4) 0 0 0 "s1").open_ <
      (extractCandleData (some Dir.down) (108 / 100) (3 / 4) 0 0 0 "s1").close := by
  constructor
  · rfl
  · norm_num [extractCandleData, round5]

/-- C6 (amended): the derivation `direction = close > open ? up : down`
holds for fallback data and for visual extraction when the analysis yields
no direction; when the analysis yields a direction it is stored verbatim
(and may contradict the stored open/close relationship, as the
counterexample shows). -/
theorem C6_direction_rule (p r1 r2 r3 : ℚ) (ts : Int) (sid : String) :
    ((extractCandleData none p r1 r2 r3 ts sid).direction = Dir.up ↔
      p < p + (r1 - 1 / 2) * (2 / 1000)) ∧
    (∀ d, (extractCandleData (some d) p r1 r2 r3 ts sid).direction = d) ∧
    ((generateFallbackData p r1 r2 r3 ts sid).direction = Dir.up ↔
      p < p + (r1 - 1 / 2) * (2 / 1000)) := by
  refine ⟨?_, fun d => rfl, ?_⟩ <;>
    by_cases hc : p < p + (r1 - 1 / 2) * (2 / 1000) <;>
      simp [extractCandleData, generateFallbackData, hc]

/-! ## C7: duplicate-observation window -/

/-- C7: a new observation with an existing observation of the same pair and
session within 30 seconds (inclusive) is not persisted and the existing
record is returned without error; otherwise the new observation is
appended. -/
theorem C7_duplicate_window (db : List Candle) (cd : Candle) :
    ((∃ e ∈ db, e.tradingPair = cd.tradingPair ∧ e.sessionId = cd.sessionId ∧
        (e.timestamp - cd.timestamp).natAbs ≤ 30000) →
      (saveCandleData db cd).1 = db ∧ ∃ e ∈ db, (saveCandleData db cd).2 = e) ∧
    ((∀ e ∈ db, e.tradingPair = cd.tradingPair → e.sessionId = cd.sessionId →
        30000 < (e.timestamp - cd.timestamp).natAbs) →
      (saveCandleData db cd).1 = db ++ [cd]) := by
  constructor
  · rintro ⟨e, he, hp, hs, hw⟩
    unfold saveCandleData
    cases hfind : db.find? (fun e =>
        decide (cd.timestamp - 30000 ≤ e.timestamp) &&
        decide (e.timestamp ≤ cd.timestamp + 30000) &&
        e.tradingPair == cd.tradingPair &&
        e.sessionId == cd.sessionId) with
    | none =>
      exfalso
      have := List.find?_eq_none.1 hfind e he
      simp only [Bool.and_eq_true, decide_eq_true_eq, beq_iff_eq] at this
      exact this ⟨⟨⟨by omega, by omega⟩, hp⟩, hs⟩
    | some e' =>
      exact ⟨rfl, e', List.mem_of_find?_eq_some hfind, rfl⟩
  · intro hnone
    unfold saveCandleData
    have hfind : db.find? (fun e =>
        decide (cd.timestamp - 30000 ≤ e.timestamp) &&
        decide (e.timestamp ≤ cd.timestamp + 30000) &&
        e.tradingPair == cd.tradingPair &&
        e.sessionId == cd.sessionId) = none := by
      refine List.find?_eq_none.2 (fun e he hpred => ?_)
      simp only [Bool.and_eq_true, decide_eq_true_eq, beq_iff_eq] at hpred
      obtain ⟨⟨⟨h1, h2⟩, h3⟩, h4⟩ := hpred
      have := hnone e he h3 h4
      omega
    rw [hfind]

/-- C7 (witness): 25 seconds after an existing observation the new one is
rejected as a duplicate; 35 seconds after it is stored. -/
theorem C7_duplicate_window_witness :
    (saveCandleData [mkTestCandle 0 Dir.up] (mkTestCandle 25000 Dir.down)).1 =
      [mkTestCandle 0 Dir.up] ∧
    (saveCandleData [mkTestCandle 0 Dir.up] (mkTestCandle 35000 Dir.down)).1 =
      [mkTestCandle 0 Dir.up, mkTestCandle 35000 Dir.down] :=
  ⟨((C7_duplicate_window [mkTestCandle 0 Dir.up] (mkTestCandle 25000 Dir.down)).1
      ⟨mkTestCandle 0 Dir.up, by decide, by decide, by decide, by decide⟩).1,
   (C7_duplicate_window [mkTestCandle 0 Dir.up] (mkTestCandle 35000 Dir.down)).2
      (by decide)⟩

/-! ## C3: the pattern method's vote -/

/-- C3: with no matched pattern the method yields `null`; otherwise the
winning direction is the argmax of the up/down tally with ties resolved to
down, and the confidence is `min(95, round(winningCount/total*100))`. -/
theorem C3_pattern_vote (db recentCandles : List Candle) :
    (findSimilarPatterns db recentCandles = [] →
      predictFromPatterns db recentCandles = none) ∧
    (findSimilarPatterns db recentCandles ≠ [] →
      ∃ q, predictFromPatterns db recentCandles = some q ∧
        (downVotes (findSimilarPatterns db recentCandles) <
            upVotes (findSimilarPatterns db recentCandles) →
          q.direction = Dir.up) ∧
        (upVotes (findSimilarPatterns db recentCandles) ≤
            downVotes (findSimilarPatterns db recentCandles) →
          q.direction = Dir.down) ∧
        q.confidence = ((min 95 (jsRound
          (max (upVotes (findSimilarPatterns db recentCandles))
               (downVotes (findSimilarPatterns db recentCandles)) * 100)
          (findSimilarPatterns db recentCandles).length) : Nat) : Int)) := by
  constructor
  · intro h
    simp [predictFromPatterns, h]
  · intro h
    refine ⟨{
        direction :=
          if upVotes (findSimilarPatterns db recentCandles) >
              downVotes (findSimilarPatterns db recentCandles) then Dir.up
          else Dir.down
        confidence := ((min 95 (jsRound
            (max (upVotes (findSimilarPatterns db recentCandles))
              (downVotes (findSimilarPatterns db recentCandles)) * 100)
            (findSimilarPatterns db recentCandles).length) : Nat) : Int)
        algorithmUsed := "pattern_matching" }, ?_, ?_, ?_, rfl⟩
    · simp only [predictFromPatterns]
      rw [if_neg h, upVotes_add_downVotes]
    · intro hlt
      simp only [if_pos hlt]
    · intro hle
      rw [if_neg (by omega : ¬ downVotes (findSimilarPatterns db recentCandles) <
        upVotes (findSimilarPatterns db recentCandles))]

/-- C3 (witness): on the all-up history, the matches are non-empty and the
vote yields an up prediction with the claimed confidence. -/
theorem C3_pattern_vote_witness :
    findSimilarPatterns dbC3 recentC3 ≠ [] ∧
    ∃ q, predictFromPatterns dbC3 recentC3 = some q ∧
      (downVotes (findSimilarPatterns dbC3 recentC3) <
          upVotes (findSimilarPatterns dbC3 recentC3) →
        q.direction = Dir.up) ∧
      (upVotes (findSimilarPatterns dbC3 recentC3) ≤
          downVotes (findSimilarPatterns dbC3 recentC3) →
        q.direction = Dir.down) ∧
      q.confidence = ((min 95 (jsRound
        (max (upVotes (findSimilarPatterns dbC3 recentC3))
             (downVotes (findSimilarPatterns dbC3 recentC3)) * 100)
        (findSimilarPatterns dbC3 recentC3).length) : Nat) : Int) :=
  ⟨by decide, (C3_pattern_vote dbC3 recentC3).2 (by decide)⟩

/-! ## C4: the trend fallback -/

/-- C4: on a 5-observation window, a trailing streak of 3 or more predicts
the reversal of the last direction with confidence `min(95, 60+streak*5)`;
otherwise the majority direction (always well defined for 5 observations)
with confidence `min(95, 55+|up-down|*5)`. -/
theorem C4_trend (recentCandles : List Candle) (h : recentCandles.length = 5) :
    (3 ≤ tailRun (recentCandles.map (·.direction)) →
      (predictFromTrend recentCandles).direction =
        ((recentCandles.map (·.direction)).getLastD Dir.down).flip ∧
      (predictFromTrend recentCandles).confidence =
        min 95 (60 + (tailRun (recentCandles.map (·.direction)) : Int) * 5)) ∧
    (tailRun (recentCandles.map (·.direction)) < 3 →
      ((recentCandles.map (·.direction)).filter (· == Dir.up)).length ≠
        ((recentCandles.map (·.direction)).filter (· == Dir.down)).length ∧
      (((recentCandles.map (·.direction)).filter (· == Dir.down)).length <
          ((recentCandles.map (·.direction)).filter (· == Dir.up)).length →
        (predictFromTrend recentCandles).direction = Dir.up) ∧
      (((recentCandles.map (·.direction)).filter (· == Dir.up)).length <
          ((recentCandles.map (·.direction)).filter (· == Dir.down)).length →
        (predictFromTrend recentCandles).direction = Dir.down) ∧
      (predictFromTrend recentCandles).confidence =
        min 95 (55 + (((((recentCandles.map (·.direction)).filter (· == Dir.up)).length : Int) -
          (((recentCandles.map (·.direction)).filter (· == Dir.down)).length : Int)).natAbs : Int) * 5)) := by
  have hsum := dirCount_add (recentCandles.map (·.direction))
  rw [List.length_map, h] at hsum
  constructor
  · intro h3
    unfold predictFromTrend
    rw [if_pos h3]
    exact ⟨rfl, rfl⟩
  · intro h3
    refine ⟨by omega, ?_, ?_, ?_⟩
    · intro hmaj
      unfold predictFromTrend
      rw [if_neg (by omega), if_pos hmaj]
    · intro hmaj
      unfold predictFromTrend
      rw [if_neg (by omega), if_neg (by omega)]
    · unfold predictFromTrend
      rw [if_neg (by omega)]

/-- C4 (witness): a window ending in a three-long down streak predicts the
reversal up with confidence 75; the theorem applies at length 5. -/
theorem C4_trend_witness :
    3 ≤ tailRun (recentC4.map (·.direction)) ∧
    (predictFromTrend recentC4).direction =
      ((recentC4.map (·.direction)).getLastD Dir.down).flip ∧
    (predictFromTrend recentC4).confidence =
      min 95 (60 + (tailRun (recentC4.map (·.direction)) : Int) * 5) :=
  ⟨by decide, (C4_trend recentC4 rfl).1 (by decide)⟩

/-! ## C5: the sliding-window pattern search -/

/-- A filterMap whose function is defined (`isSome`) exactly on the
elements satisfying `p` keeps as many elements as the filter by `p`. -/
theorem length_filterMap_of_isSome {α β : Type} (l : List α) (f : α → Option β)
    (p : α → Bool) (h : ∀ a ∈ l, (f a).isSome = p a) :
    (l.filterMap f).length = (l.filter p).length := by
  induction l with
  | nil => rfl
  | cons a l ih =>
    have ha := h a (List.mem_cons_self a l)
    have hrest : ∀ x ∈ l, (f x).isSome = p x :=
      fun x hx => h x (List.mem_cons_of_mem a hx)
    rw [List.filterMap_cons, List.filter_cons]
    cases hpa : p a with
    | true =>
      obtain ⟨b, hb⟩ := Option.isSome_iff_exists.1 (by rw [ha, hpa])
      simp [hb, ih hrest]
    | false =>
      have hnone : f a = none :=
        Option.not_isSome_iff_eq_none.1 (by rw [ha, hpa]; simp)
      simp [hnone, ih hrest]

/-- The scan records one match per window whose directions equal the
target pattern positionally. -/
theorem scanMatches_length (hist : List Candle) (target : List Dir) :
    (scanMatches hist target).length =
      ((List.range (hist.length - target.length)).filter
        (fun i => ((hist.drop i).take target.length).map (·.direction) == target)).length := by
  unfold scanMatches
  refine length_filterMap_of_isSome _ _ _ (fun i hi => ?_)
  have hlen : i + target.length < hist.length := by
    rw [List.mem_range] at hi
    omega
  by_cases hw : ((hist.drop i).take target.length).map (·.direction) = target
  · rw [List.get?_eq_get hlen]
    simp [hw]
  · simp only [List.map_take, List.map_drop] at hw
    simp [List.map_take, List.map_drop, hw]

/-- C5 (counterexample): on a 26-candle all-up history, 21 windows match
the all-up signature, but the pattern search returns (and the tally later
sees) only 20 of them. -/
theorem C5_counterexample :
    scannedHistory candlesC5 (mkTestCandle (60000 * 40) Dir.up) = candlesC5 ∧
    (scanMatches candlesC5 (recentC5.map (·.direction))).length = 21 ∧
    (findSimilarPatterns candlesC5 recentC5).length = 20 := by
  refine ⟨by decide, by decide, by decide⟩

/-- C5 (amended): the search scans the earliest (not the most recent) up
to 1000 observations of the pair strictly before the window, counts a
match exactly when all directions equal the signature positionally, takes
the outcome of a match from the observation immediately following the
window, and keeps only the first 20 matches for the tally. -/
theorem C5_scan_characterisation (db : List Candle) (c0 : Candle) (rest : List Candle) :
    (findSimilarPatterns db (c0 :: rest)).length =
      min 20 (((List.range ((scannedHistory db c0).length - (c0 :: rest).length)).filter
        (fun i => (((scannedHistory db c0).drop i).take (c0 :: rest).length).map (·.direction) ==
          (c0 :: rest).map (·.direction))).length) ∧
    ∀ m ∈ findSimilarPatterns db (c0 :: rest),
      ∃ i, i + (c0 :: rest).length < (scannedHistory db c0).length ∧
        (((scannedHistory db c0).drop i).take (c0 :: rest).length).map (·.direction) =
          (c0 :: rest).map (·.direction) ∧
        ((scannedHistory db c0).get? (i + (c0 :: rest).length)).map (·.direction) =
          some m.nextDirection := by
  constructor
  · show ((scanMatches (scannedHistory db c0) ((c0 :: rest).map (·.direction))).take 20).length = _
    rw [List.length_take, scanMatches_length]
    simp
  · intro m hm
    have hm' : m ∈ scanMatches (scannedHistory db c0) ((c0 :: rest).map (·.direction)) :=
      List.mem_of_mem_take hm
    unfold scanMatches at hm'
    obtain ⟨i, hi, hf⟩ := List.mem_filterMap.1 hm'
    simp only [List.length_map] at hi hf
    have hlen : i + (c0 :: rest).length < (scannedHistory db c0).length := by
      rw [List.mem_range] at hi
      omega
    refine ⟨i, hlen, ?_⟩
    by_cases hw : (((scannedHistory db c0).drop i).take (c0 :: rest).length).map
        (·.direction) = (c0 :: rest).map (·.direction)
    · refine ⟨hw, ?_⟩
      rw [if_pos hw, List.get?_eq_get hlen] at hf
      have hrec := Option.some.inj hf
      rw [List.get?_eq_get hlen, ← hrec]
      rfl
    · rw [if_neg hw] at hf
      exact absurd hf (by simp)

/-- C5 (witness): on the 7-candle all-up history, the characterisation
applies; the first match's outcome is the direction of the candle after
its window. -/
theorem C5_scan_characterisation_witness :
    ((findSimilarPatterns dbC3 (headC5w :: restC5w)).length =
      min 20 (((List.range ((scannedHistory dbC3 headC5w).length - (headC5w :: restC5w).length)).filter
        (fun i => (((scannedHistory dbC3 headC5w).drop i).take (headC5w :: restC5w).length).map (·.direction) ==
          (headC5w :: restC5w).map (·.direction))).length)) ∧
    (∃ i, i + (headC5w :: restC5w).length < (scannedHistory dbC3 headC5w).length ∧
      (((scannedHistory dbC3 headC5w).drop i).take (headC5w :: restC5w).length).map (·.direction) =
        (headC5w :: restC5w).map (·.direction) ∧
      ((scannedHistory dbC3 headC5w).get? (i + (headC5w :: restC5w).length)).map (·.direction) =
        some matchC5w.nextDirection) :=
  ⟨(C5_scan_characterisation dbC3 headC5w restC5w).1,
   (C5_scan_characterisation dbC3 headC5w restC5w).2 matchC5w (by decide)⟩

/-! ## C8: grading a prediction -/

/-- C8 (counterexample): re-running verification on an already-graded
record is not a no-op: the stored record changes (fresh `verifiedAt`). -/
theorem C8_counterexample :
    (verifyPrediction [gradedRecord] 0 (mkTestCandle 660000 Dir.down) 2000).1 ≠
      [gradedRecord] := by
  decide

/-- C8 (amended): verification of a found record stores an `actualResult`
with `correct = (predicted direction == actual direction)` and a fresh
`verifiedAt`, marking the record processed; it does so unconditionally, so
re-running on a graded record overwrites the result rather than leaving
the record unchanged. -/
theorem C8_verify_grades (preds : List PredRecord) (predictionId : Nat)
    (actualCandle : Candle) (now : Int) (p : PredRecord)
    (hfind : preds.find? (fun q => q.id == predictionId) = some p) :
    ∃ u, verifyPrediction preds predictionId actualCandle now =
        (preds.map (fun q => if q.id == predictionId then u else q), some u) ∧
      u.actualResult = some { direction := actualCandle.direction
                              actualClose := actualCandle.close
                              verifiedAt := now
                              correct := p.direction == actualCandle.direction } ∧
      u.isProcessed = true := by
  refine ⟨{ p with
      actualResult := some { direction := actualCandle.direction
                             actualClose := actualCandle.close
                             verifiedAt := now
                             correct := p.direction == actualCandle.direction }
      accuracy := some (if p.direction == actualCandle.direction then 100 else 0)
      isProcessed := true }, ?_, rfl, rfl⟩
  unfold verifyPrediction
  rw [hfind]

/-- C8 (witness): grading the already-graded up-prediction against a down
candle at time 2000 overwrites its actual result. -/
theorem C8_verify_grades_witness :
    ∃ u, verifyPrediction [gradedRecord] 0 (mkTestCandle 660000 Dir.down) 2000 =
        ([gradedRecord].map (fun q => if q.id == 0 then u else q), some u) ∧
      u.actualResult = some { direction := Dir.down
                              actualClose := 1
                              verifiedAt := 2000
                              correct := gradedRecord.direction == Dir.down } ∧
      u.isProcessed = true :=
  C8_verify_grades [gradedRecord] 0 (mkTestCandle 660000 Dir.down) 2000 gradedRecord rfl

/-! ## C9: the capture cycle never verifies -/

/-- C9: after 11 capture cycles on alternating synthetic observations, two
prediction records exist (one per cycle from the 10th on) and none is
verified: the cycle never invokes the verification step, so the record
created after the 10th observation is still unverified after the 11th. -/
theorem C9_missing_verification :
    elevenTicks.predictions.length = 2 ∧
    elevenTicks.predictions.all (fun p => !p.isProcessed && p.actualResult.isNone) = true := by
  refine ⟨by decide, by decide⟩

/-! ## C10: authentication of the data routes -/

/-- C10 (counterexample): the predictions-list route performs no session
check: with no session id at all it still answers 200 with the stored
prediction data. -/
theorem C10_counterexample :
    blankSession none = true ∧
    getPredictionsRoute none [predRecC10] "EUR/USD OTC" 10 = (200, [predRecC10]) :=
  ⟨rfl, rfl⟩

/-- C10 (amended): the candles route and the latest-prediction route
reject a missing or not-logged-in session with 401 and no data; the
predictions-list route answers 200 regardless of the session. -/
theorem C10_auth_rejection (sessionQuery : Option String) (sdb : List SessionRecord)
    (now : Int) (puppeteerLoggedIn : Bool) (cdb : List Candle) (pdb : List PredRecord)
    (tradingPair : String) (limit : Nat)
    (h : blankSession sessionQuery = true ∨
      (validateQuotexSession sdb (sessionQuery.getD "") now puppeteerLoggedIn).1 = false) :
    getCandlesRoute sessionQuery sdb now puppeteerLoggedIn cdb tradingPair limit = (401, []) ∧
    getPredictionRoute sessionQuery sdb now puppeteerLoggedIn pdb tradingPair = (401, none) ∧
    (getPredictionsRoute sessionQuery pdb tradingPair limit).1 = 200 := by
  refine ⟨?_, ?_, rfl⟩ <;>
  · cases h with
    | inl hb => simp [getCandlesRoute, getPredictionRoute, hb]
    | inr hv =>
      by_cases hb : blankSession sessionQuery = true
      · simp [getCandlesRoute, getPredictionRoute, hb]
      · simp [getCandlesRoute, getPredictionRoute, hb, hv]

/-- C10 (witness): with no session id, the candles and latest-prediction
routes reject while the predictions-list route answers 200. -/
theorem C10_auth_rejection_witness :
    getCandlesRoute none [] 0 false [mkTestCandle 0 Dir.up] "EUR/USD OTC" 10 = (401, []) ∧
    getPredictionRoute none [] 0 false [predRecC10] "EUR/USD OTC" = (401, none) ∧
    (getPredictionsRoute none [predRecC10] "EUR/USD OTC" 10).1 = 200 :=
  C10_auth_rejection none [] 0 false [mkTestCandle 0 Dir.up] [predRecC10]
    "EUR/USD OTC" 10 (Or.inl rfl)

end Dashboard
